import Mathlib

/-!
Verification of the rlvm storage plugin: a shallow embedding of the mountd
mount-policy daemon and of the CSI Controller/Node orchestrators, with
theorems settling the behavioural claims about them.

External collaborators (the wax glob matcher, the std hasher, the live file
system, the volumed and mountd RPC endpoints, and the raw mount syscalls)
are modelled as explicit oracle parameters; everything else is translated
directly from the Rust source in src/crates.
-/

namespace RLVM

/-- Status codes of the RPC error taxonomy (tonic Status codes used by the
source: invalid_argument, not_found, already_exists, failed_precondition,
out_of_range, permission_denied, aborted, internal, unimplemented). -/
inductive Code where
  | invalidArgument
  | notFound
  | alreadyExists
  | failedPrecondition
  | outOfRange
  | permissionDenied
  | aborted
  | internal
  | unimplemented
  deriving DecidableEq, Repr

/-- Decidable equality for Except values, so that concrete handler results
can be compared by decide. -/
instance {ε α : Type} [DecidableEq ε] [DecidableEq α] :
    DecidableEq (Except ε α) := fun a b =>
  match a, b with
  | .ok x, .ok y =>
    if h : x = y then .isTrue (congrArg Except.ok h)
    else .isFalse fun hc => h (Except.ok.inj hc)
  | .error x, .error y =>
    if h : x = y then .isTrue (congrArg Except.error h)
    else .isFalse fun hc => h (Except.error.inj hc)
  | .ok _, .error _ => .isFalse fun hc => Except.noConfusion hc
  | .error _, .ok _ => .isFalse fun hc => Except.noConfusion hc

/-! ## mountd: policy configuration and the mount/unmount handlers
(src/crates/mountd/src/lib.rs and src/crates/mountd/src/server.rs) -/

/-- File metadata as observed through std::fs::Metadata: owner uid, owner
gid, and the read-only permission bit (permissions().readonly()). -/
structure FileMeta where
  uid : Nat
  gid : Nat
  readonlyPerm : Bool
  deriving DecidableEq, Repr

/-- A snapshot of the host seen by mountd: metadata per path (none when the
path does not exist), the is_dir predicate, and the live mount table
returned by mountpaths(). -/
structure MountHost where
  meta : String → Option FileMeta
  isDir : String → Bool
  mounts : List String

/-- The mountd Config: the owning user uid and group gid resolved at load
time, the whitelist of glob patterns, and an oracle globMatch for the wax
glob matcher. globMatch pat p is the value of Glob::new(pat) matching p,
where a pattern that fails to compile is logged and treated as
non-matching, exactly as the source does. -/
structure Config where
  forUserUid : Nat
  forGroupGid : Nat
  whitelist : List String
  globMatch : String → String → Bool

/-- The distinct failure modes of Config::ensure_interactable. -/
inductive PolicyError where
  | doesNotExist
  | readonlyCheckFailed
  | notOwned
  deriving DecidableEq, Repr

/-- Whether some whitelist pattern matches the path: the
whitelist.iter().find(...).is_some() step of ensure_interactable. -/
def Config.whitelistMatch (cfg : Config) (path : String) : Bool :=
  cfg.whitelist.any fun pat => cfg.globMatch pat path

/-- Config::ensure_interactable from src/crates/mountd/src/lib.rs, lines
35-94: error if the path does not exist; then, when readonly is requested,
error if the read-only permission bit is set (the condition of line 50 as
written in the source, which guards the error branch with
meta.permissions().readonly() rather than its negation); then accept if
whitelisted; then error unless the uid and gid both match the config. -/
def Config.ensure_interactable (cfg : Config) (host : MountHost) (path : String)
    (readonly : Bool) : Except PolicyError Unit :=
  match host.meta path with
  | none => .error .doesNotExist
  | some m =>
    if readonly && m.readonlyPerm then
      .error .readonlyCheckFailed
    else if cfg.whitelistMatch path then
      .ok ()
    else if m.uid != cfg.forUserUid || m.gid != cfg.forGroupGid then
      .error .notOwned
    else
      .ok ()

/-- The wire MountFlag enum of the mountd proto (Unknown, Bind, ReadOnly,
with the i32 values 0, 1, 2 in declaration order). -/
inductive MountFlag where
  | unknown
  | bind
  | readOnly
  deriving DecidableEq, Repr

/-- MountFlag::from_i32: the prost decoding of a raw i32 into the enum. -/
def MountFlag.fromI32 (n : Int) : Option MountFlag :=
  if n = 0 then some .unknown
  else if n = 1 then some .bind
  else if n = 2 then some .readOnly
  else none

/-- The sys_mount::MountFlags bits used by the server: RDONLY, BIND, NODEV,
NOSUID, modelled as a record of booleans. -/
structure MountFlags where
  rdonly : Bool := false
  bnd : Bool := false
  nodev : Bool := false
  nosuid : Bool := false
  deriving DecidableEq, Repr

/-- Bitwise union of two MountFlags values (MountFlags::insert). -/
def MountFlags.union (a b : MountFlags) : MountFlags :=
  ⟨a.rdonly || b.rdonly, a.bnd || b.bnd, a.nodev || b.nodev, a.nosuid || b.nosuid⟩

/-- Whether every bit of a is also set in b. -/
def MountFlags.isSubset (a b : MountFlags) : Bool :=
  (!a.rdonly || b.rdonly) && (!a.bnd || b.bnd) && (!a.nodev || b.nodev) &&
    (!a.nosuid || b.nosuid)

/-- The From impl mapping a wire MountFlag to sys_mount flags: Unknown to
the empty set, Bind to BIND, ReadOnly to RDONLY. -/
def MountFlag.toSys : MountFlag → MountFlags
  | .unknown => {}
  | .bind => { bnd := true }
  | .readOnly => { rdonly := true }

/-- MountFlags::from_iter over the mapped request flags. -/
def MountFlags.ofList (l : List MountFlag) : MountFlags :=
  l.foldl (fun acc f => acc.union f.toSys) {}

/-- The inner Mount message: source and destination paths. -/
structure MountPath where
  src : String
  dst : String
  deriving DecidableEq, Repr

/-- The MountRequest wire message: an optional Mount plus raw i32 flags. -/
structure MountRequest where
  mount : Option MountPath
  flags : List Int
  deriving DecidableEq, Repr

/-- Outcome of MountdServer::mount: an error status, the already-mounted
silent success (no syscall issued), or the point at which the mount
syscall is invoked, recording exactly the flag set passed to it. The
subsequent syscall result and the chown of dst are host effects outside
the model. -/
inductive MountOutcome where
  | err (c : Code)
  | okAlreadyMounted
  | okMounted (flags : MountFlags)
  deriving DecidableEq, Repr

/-- Outcome of MountdServer::unmount: an error status, the not-mounted
silent success (no syscall issued), or the point at which the unmount
syscall is invoked. -/
inductive UnmountOutcome where
  | err (c : Code)
  | okNotMounted
  | okUnmounted
  deriving DecidableEq, Repr

/-- The MountdServer state: its loaded Config. -/
structure MountdServer where
  config : Config

/-- MountdServer::mount from src/crates/mountd/src/server.rs, lines
55-162: require the mount field and non-empty src and dst; policy-check
src (readonly false) and dst (readonly iff the raw flag list contains the
ReadOnly value 2), surfacing failures as PermissionDenied; require dst to
be a directory; silently succeed if dst is already in the mount table;
decode the raw flags (any invalid value is InvalidArgument); and finally
invoke the mount syscall with the decoded flags unioned with NODEV and
NOSUID. -/
def MountdServer.mount (s : MountdServer) (host : MountHost)
    (req : MountRequest) : MountOutcome :=
  match req.mount with
  | none => .err .invalidArgument
  | some m =>
    if m.src = "" then .err .invalidArgument
    else if m.dst = "" then .err .invalidArgument
    else
      match s.config.ensure_interactable host m.src false with
      | .error _ => .err .permissionDenied
      | .ok () =>
        match s.config.ensure_interactable host m.dst (req.flags.contains 2) with
        | .error _ => .err .permissionDenied
        | .ok () =>
          if !host.isDir m.dst then .err .failedPrecondition
          else if host.mounts.contains m.dst then .okAlreadyMounted
          else
            match req.flags.mapM MountFlag.fromI32 with
            | none => .err .invalidArgument
            | some mapped =>
              .okMounted ((MountFlags.ofList mapped).union
                { nodev := true, nosuid := true })

/-- MountdServer::unmount from src/crates/mountd/src/server.rs, lines
164-213: require a non-empty path; silently succeed if the path is not in
the mount table; policy-check the path (readonly false), surfacing failure
as PermissionDenied; and finally invoke the unmount syscall. -/
def MountdServer.unmount (s : MountdServer) (host : MountHost)
    (path : String) : UnmountOutcome :=
  if path = "" then .err .invalidArgument
  else if !host.mounts.contains path then .okNotMounted
  else
    match s.config.ensure_interactable host path false with
    | .error _ => .err .permissionDenied
    | .ok () => .okUnmounted

/-! ## CSI data model and the volumed client oracle
(src/crates/csi/src/lib.rs and src/crates/csi/src/controller.rs) -/

/-- MIN_VOLUME_SIZE_BYTES from src/crates/csi/src/lib.rs: the minimum
volume size of 512 MiB. -/
def MIN_VOLUME_SIZE_BYTES : Nat := 512 * 1024 * 1024

/-- The LogicalVolume wire message returned by volumed, restricted to the
fields the controller reads: uuid, name, and capacity in bytes. -/
structure LogicalVolume where
  uuid : String
  name : String
  capacity_bytes : Nat
  deriving DecidableEq, Repr

/-- A CSI Topology message; segments model the HashMap of label to value
as an association list without duplicate keys. -/
structure Topology where
  segments : List (String × String)
  deriving DecidableEq, Repr

/-- Equality of two segment maps with the std HashMap PartialEq semantics:
same size, and every binding of the first is present in the second. -/
def segmentsEq (a b : List (String × String)) : Bool :=
  a.length == b.length && a.all fun kv => List.lookup kv.1 b == some kv.2

/-- Equality of two Topology messages, as compared by the source through
the derived PartialEq of the generated message type. -/
def topologyEq (a b : Topology) : Bool :=
  segmentsEq a.segments b.segments

/-- The CSI access-mode enum (declaration order of csi.proto v1, giving
the i32 values 0 through 7). -/
inductive Mode where
  | unknown
  | singleNodeWriter
  | singleNodeReaderOnly
  | multiNodeReaderOnly
  | multiNodeSingleWriter
  | multiNodeMultiWriter
  | singleNodeSingleWriter
  | singleNodeMultiWriter
  deriving DecidableEq, Repr

/-- Mode::from_i32: prost decoding of the raw i32 access mode. -/
def Mode.fromI32 (n : Int) : Option Mode :=
  if n = 0 then some .unknown
  else if n = 1 then some .singleNodeWriter
  else if n = 2 then some .singleNodeReaderOnly
  else if n = 3 then some .multiNodeReaderOnly
  else if n = 4 then some .multiNodeSingleWriter
  else if n = 5 then some .multiNodeMultiWriter
  else if n = 6 then some .singleNodeSingleWriter
  else if n = 7 then some .singleNodeMultiWriter
  else none

/-- The AccessMode message: a raw i32 mode field. -/
structure AccessMode where
  mode : Int
  deriving DecidableEq, Repr

/-- The prost enum accessor .mode(): decode the raw field, falling back to
the default variant (Unknown) on an unrecognized value. -/
def AccessMode.modeEnum (a : AccessMode) : Mode :=
  (Mode.fromI32 a.mode).getD .unknown

/-- A VolumeCapability message, restricted to the optional access mode the
handlers read. -/
structure VolumeCapability where
  access_mode : Option AccessMode
  deriving DecidableEq, Repr

/-- The orchestrator-facing Volume message built by process_volume. -/
structure Volume where
  capacity_bytes : Int
  volume_id : String
  volume_context : List (String × String)
  accessible_topology : List Topology
  deriving DecidableEq, Repr

/-- The CreateLvRequest wire message sent to volumed. -/
structure CreateLvRequest where
  name : String
  capacity : Nat
  tags : List String
  deriving DecidableEq, Repr

/-- Oracle for the volumed RPC client as seen from one controller request:
the result each RPC would return. Transport and server failures are error
statuses. -/
structure VolumedClient where
  getLvList : Except Code (List LogicalVolume)
  getFreeBytes : Except Code Nat
  getLvByName : String → Except Code LogicalVolume
  getLvByUuid : String → Except Code LogicalVolume
  createLv : CreateLvRequest → Except Code LogicalVolume
  formatLv : String → Except Code Unit
  deleteLv : String → Except Code Unit

/-- The RLVMController state: the node id string used for topology. -/
structure RLVMController where
  node_id : String

/-- RLVMController::get_host_topology: the single host segment. -/
def RLVMController.get_host_topology (c : RLVMController) : Topology :=
  ⟨[("host", c.node_id)]⟩

/-- RLVMController::get_access_topologies. -/
def RLVMController.get_access_topologies (c : RLVMController) : List Topology :=
  [c.get_host_topology]

/-- RLVMController::process_volume: project a LogicalVolume into the
orchestrator-facing Volume. -/
def RLVMController.process_volume (c : RLVMController) (lv : LogicalVolume) : Volume :=
  { capacity_bytes := Int.ofNat lv.capacity_bytes
    volume_id := lv.uuid
    volume_context := [("name", lv.name)]
    accessible_topology := c.get_access_topologies }

/-! ## Controller: ListVolumes -/

/-- The GetCapacityRequest message, restricted to the fields the handler
reads: the capability list and the optional accessible topology. -/
structure GetCapacityRequest where
  volume_capabilities : List VolumeCapability
  accessible_topology : Option Topology
  deriving DecidableEq, Repr

/-- The GetCapacityResponse message; the prost default has all fields at
zero or unset. -/
structure GetCapacityResponse where
  available_capacity : Int := 0
  maximum_volume_size : Option Int := none
  minimum_volume_size : Option Int := none
  deriving DecidableEq, Repr

/-- Outcome of get_capacity, separating the two return points of the
source: shortCircuit is a response produced without querying the
Volume-Group Authority, queried is the result after the free-bytes call. -/
inductive CapacityOutcome where
  | shortCircuit (r : GetCapacityResponse)
  | queried (r : Except Code GetCapacityResponse)
  deriving DecidableEq, Repr

/-- Whether a mode is one of the three multi-node access modes listed in
the handler. -/
def isMultiMode (m : Mode) : Bool :=
  [Mode.multiNodeMultiWriter, Mode.multiNodeReaderOnly,
    Mode.multiNodeSingleWriter].contains m

/-- RLVMController::get_capacity from src/crates/csi/src/controller.rs,
lines 177-227: return the default (zero) response without querying volumed
when some requested capability decodes to a multi-node access mode, or
when the requested accessible_topology equals the host topology; otherwise
query free bytes (a failure is Internal) and answer with that capacity,
the 512 MiB minimum, and no maximum. -/
def RLVMController.get_capacity (c : RLVMController) (client : VolumedClient)
    (req : GetCapacityRequest) : CapacityOutcome :=
  let multi_caps := (req.volume_capabilities.map fun cap =>
    (cap.access_mode.getD ⟨0⟩).modeEnum).find? isMultiMode
  if multi_caps.isSome then .shortCircuit {}
  else if (match req.accessible_topology with
      | some t => topologyEq c.get_host_topology t
      | none => false) then .shortCircuit {}
  else
    match client.getFreeBytes with
    | .error _ => .queried (.error .internal)
    | .ok free =>
      .queried (.ok
        { available_capacity := Int.ofNat free
          maximum_volume_size := none
          minimum_volume_size := some (Int.ofNat MIN_VOLUME_SIZE_BYTES) })

/-! ## Controller: CreateVolume -/

/-- The CapacityRange message: raw i64 required and limit bytes. -/
structure CapacityRange where
  required_bytes : Int
  limit_bytes : Int
  deriving DecidableEq, Repr

/-- The CreateVolumeRequest message, restricted to the fields the handler
reads. -/
structure CreateVolumeRequest where
  name : String
  volume_capabilities : List VolumeCapability
  capacity_range : Option CapacityRange
  deriving DecidableEq, Repr

/-- Result of create_volume: the CreateLvRequest issued to volumed when
the creation RPC was actually sent (none when no create was attempted),
and the response returned to the caller. -/
structure CreateVolumeResult where
  createReq : Option CreateLvRequest
  response : Except Code Volume
  deriving DecidableEq, Repr

/-- The capacity-parsing step of create_volume (controller.rs lines
261-276): with a capacity_range present, both required_bytes and
limit_bytes must convert to usize (negative values are InvalidArgument);
without one, the capacity defaults to MIN_VOLUME_SIZE_BYTES with limit 0. -/
def resolveCapacityRange : Option CapacityRange → Except Code (Nat × Nat)
  | some cap =>
    if cap.required_bytes < 0 then .error .invalidArgument
    else if cap.limit_bytes < 0 then .error .invalidArgument
    else .ok (cap.required_bytes.toNat, cap.limit_bytes.toNat)
  | none => .ok (MIN_VOLUME_SIZE_BYTES, 0)

/-- The tail of create_volume after the validation and capacity-bound
checks (controller.rs lines 305-352): derive the safe name by hashing the
caller name; look it up at volumed; on success fail AlreadyExists when the
found capacity differs, else reuse the found volume; on NotFound send a
CreateLvRequest under the safe name, with the original name in a tag; any
other lookup error is returned as is; finally format under the safe name
and project the volume. -/
def RLVMController.create_volume_postBounds (c : RLVMController)
    (client : VolumedClient) (hash_resource : String → String)
    (name : String) (capacity : Nat) : CreateVolumeResult :=
  let safe_name := hash_resource name
  match client.getLvByName safe_name with
  | .ok old =>
    if old.capacity_bytes ≠ capacity then ⟨none, .error .alreadyExists⟩
    else
      match client.formatLv safe_name with
      | .error e => ⟨none, .error e⟩
      | .ok () => ⟨none, .ok (c.process_volume old)⟩
  | .error status =>
    match status with
    | .notFound =>
      let creq : CreateLvRequest := ⟨safe_name, capacity, ["name=" ++ name]⟩
      match client.createLv creq with
      | .error e => ⟨some creq, .error e⟩
      | .ok vol =>
        match client.formatLv safe_name with
        | .error e => ⟨some creq, .error e⟩
        | .ok () => ⟨some creq, .ok (c.process_volume vol)⟩
    | other => ⟨none, .error other⟩

/-- RLVMController::create_volume from src/crates/csi/src/controller.rs,
lines 244-352: reject an empty name or empty capability list as
InvalidArgument; resolve the requested capacity; query free bytes (a
failure is Internal); reject a capacity below MIN_VOLUME_SIZE_BYTES or
above the free bytes as OutOfRange; then run the idempotent
lookup-create-format protocol. hash_resource is the oracle for the std
DefaultHasher based safe-name derivation of controller.rs lines 508-516
(deterministic in its argument by construction). -/
def RLVMController.create_volume (c : RLVMController) (client : VolumedClient)
    (hash_resource : String → String) (req : CreateVolumeRequest) :
    CreateVolumeResult :=
  if req.name = "" then ⟨none, .error .invalidArgument⟩
  else if req.volume_capabilities.isEmpty then ⟨none, .error .invalidArgument⟩
  else
    match resolveCapacityRange req.capacity_range with
    | .error e => ⟨none, .error e⟩
    | .ok (capacity, _limit) =>
      match client.getFreeBytes with
      | .error _ => ⟨none, .error .internal⟩
      | .ok total_capacity =>
        if capacity < MIN_VOLUME_SIZE_BYTES then ⟨none, .error .outOfRange⟩
        else if capacity > total_capacity then ⟨none, .error .outOfRange⟩
        else c.create_volume_postBounds client hash_resource req.name capacity

/-! ## Controller: DeleteVolume -/

/-- Result of delete_volume: the volume name a DeleteLvRequest was issued
for, if any, and the response returned to the caller. -/
structure DeleteVolumeResult where
  deleteReq : Option String
  response : Except Code Unit
  deriving DecidableEq, Repr

/-- RLVMController::delete_volume from src/crates/csi/src/controller.rs,
lines 354-389: reject an empty volume_id as InvalidArgument; look the
volume up by UUID and discard any error through .ok(); when the lookup
succeeded, delete by the internal volume name, propagating a delete
failure; when it failed for any reason, log and succeed without deleting. -/
def RLVMController.delete_volume (client : VolumedClient)
    (volume_id : String) : DeleteVolumeResult :=
  if volume_id = "" then ⟨none, .error .invalidArgument⟩
  else
    match client.getLvByUuid volume_id with
    | .ok volume =>
      match client.deleteLv volume.name with
      | .error e => ⟨some volume.name, .error e⟩
      | .ok () => ⟨some volume.name, .ok ()⟩
    | .error _ => ⟨none, .ok ()⟩

/-! ## Node: NodePublishVolume (src/crates/csi/src/node.rs) -/

/-- Oracle for the mountd RPC client as seen from one node request. -/
structure MountdClient where
  getLvmBlockPath : String → Except Code String
  mountRpc : MountRequest → Except Code Unit
  unmountRpc : String → Except Code Unit

/-- The host file system as seen by the node process: path existence, and
whether a tokio create_dir_all call on a non-empty path would succeed. -/
structure NodeHost where
  pathExists : String → Bool
  createDirAllOk : String → Bool

/-- The result of tokio::fs::create_dir_all on a path: the std
DirBuilder::create_dir_all it delegates to special-cases the empty path
to Ok(()) before attempting any creation, so only a non-empty path can
fail, per the host oracle. -/
def NodeHost.createDirAll (host : NodeHost) (p : String) : Bool :=
  if p = "" then true else host.createDirAllOk p

/-- The NodePublishVolumeRequest message, restricted to the fields the
handler reads. -/
structure NodePublishVolumeRequest where
  volume_id : String
  staging_target_path : String
  target_path : String
  volume_capability : Option VolumeCapability
  deriving DecidableEq, Repr

/-- Result of node_publish_volume: the path create_dir_all was invoked on,
if the handler got that far, and the response returned to the caller. -/
structure NodePublishResult where
  createDirCall : Option String
  response : Except Code Unit
  deriving DecidableEq, Repr

/-- RLVMNode::node_publish_volume from src/crates/csi/src/node.rs, lines
185-261: reject an empty volume_id, an empty staging_target_path, or a
missing volume_capability as InvalidArgument (target_path is never
checked); resolve the volume id through mountd, propagating its error;
create target_path recursively (a failure there is Internal; the empty
path trivially succeeds, see NodeHost.createDirAll); fail
FailedPrecondition when staging_target_path does not exist; derive the
read-only flag from the access mode being SingleNodeReaderOnly (raw value
2); and issue a bind mount from the staging path to the target path,
adding the ReadOnly flag when derived. -/
def RLVMNode.node_publish_volume (client : MountdClient) (host : NodeHost)
    (req : NodePublishVolumeRequest) : NodePublishResult :=
  if req.volume_id = "" then ⟨none, .error .invalidArgument⟩
  else if req.staging_target_path = "" then ⟨none, .error .invalidArgument⟩
  else if req.volume_capability.isNone then ⟨none, .error .invalidArgument⟩
  else
    match client.getLvmBlockPath req.volume_id with
    | .error e => ⟨none, .error e⟩
    | .ok _ =>
      let mount_src := req.staging_target_path
      let mount_dst := req.target_path
      ⟨some mount_dst,
        if !host.createDirAll mount_dst then .error .internal
        else if !host.pathExists mount_src then .error .failedPrecondition
        else
          let readonly := ((req.volume_capability.bind fun cap => cap.access_mode).map
            fun am => am.mode == 2).getD false
          match client.mountRpc ⟨some ⟨mount_src, mount_dst⟩,
              [1] ++ (if readonly then [2] else [])⟩ with
          | .error e => .error e
          | .ok () => .ok ()⟩

/-! ## Concrete fixtures used by the claim witnesses and counterexamples -/

/-- C1 fixture: owner 1000:1000, empty whitelist. -/
def c1Config : Config := ⟨1000, 1000, [], fun _ _ => false⟩

/-- C1 fixture: a read-only path and a writable path, both owned by
1000:1000. -/
def c1Host : MountHost :=
  ⟨fun p => if p = "/ro" then some ⟨1000, 1000, true⟩
    else if p = "/rw" then some ⟨1000, 1000, false⟩ else none,
   fun _ => true, []⟩

/-- C2 fixture: owner 1000:1000, one whitelist pattern matching /w. -/
def c2Srv : MountdServer :=
  ⟨⟨1000, 1000, ["w"], fun pat p => pat = "w" && p = "/w"⟩⟩

/-- C2 fixture: /bad exists owned by 1:1 and is mounted; /w exists owned by
5:5. -/
def c2Host : MountHost :=
  ⟨fun p => if p = "/bad" then some ⟨1, 1, false⟩
    else if p = "/w" then some ⟨5, 5, false⟩ else none,
   fun _ => true, ["/bad"]⟩

/-- C2 fixture: a mount request whose source is the unadmitted /bad. -/
def c2Req : MountRequest := ⟨some ⟨"/bad", "/w"⟩, []⟩

/-- C3 fixture: everything whitelisted. -/
def c3Srv : MountdServer := ⟨⟨0, 0, ["a"], fun _ _ => true⟩⟩

/-- C3 fixture: all paths exist as directories, nothing mounted. -/
def c3Host : MountHost := ⟨fun _ => some ⟨0, 0, false⟩, fun _ => true, []⟩

/-- C3 fixture: a request carrying the Bind and ReadOnly wire flags. -/
def c3Req : MountRequest := ⟨some ⟨"/s", "/d"⟩, [1, 2]⟩

/-- C7 fixture: owner 0:0, no whitelist. -/
def c7Srv : MountdServer := ⟨⟨0, 0, [], fun _ _ => false⟩⟩

/-- C7 fixture: all paths exist owned by 0:0; /d is already mounted. -/
def c7Host : MountHost := ⟨fun _ => some ⟨0, 0, false⟩, fun _ => true, ["/d"]⟩

/-- C7 fixture: a mount request targeting the already mounted /d. -/
def c7Req : MountRequest := ⟨some ⟨"/s", "/d"⟩, []⟩

/-- Controller fixture shared across the controller claims: node id n. -/
def ctlN : RLVMController := ⟨"n"⟩

/-- C4 fixture: the volumed oracle knows no volume yet and echoes create
requests back. -/
def c4Client : VolumedClient :=
  { getLvList := .ok []
    getFreeBytes := .ok MIN_VOLUME_SIZE_BYTES
    getLvByName := fun _ => .error .notFound
    getLvByUuid := fun _ => .error .notFound
    createLv := fun r => .ok ⟨"u1", r.name, r.capacity⟩
    formatLv := fun _ => .ok ()
    deleteLv := fun _ => .ok () }

/-- Safe-name oracle fixture standing for the std DefaultHasher. -/
def cHash : String → String := fun s => "h" ++ s

/-- C4 fixture: a create request with no capacity range. -/
def c4Req : CreateVolumeRequest := ⟨"a", [⟨none⟩], none⟩

/-- C6 fixture: free bytes exactly at the minimum volume size. -/
def c6Client : VolumedClient :=
  { getLvList := .ok []
    getFreeBytes := .ok MIN_VOLUME_SIZE_BYTES
    getLvByName := fun _ => .error .notFound
    getLvByUuid := fun _ => .error .notFound
    createLv := fun r => .ok ⟨"u1", r.name, r.capacity⟩
    formatLv := fun _ => .ok ()
    deleteLv := fun _ => .ok () }

/-- C6 fixture: a create request asking for exactly the free-byte
boundary. -/
def c6Req : CreateVolumeRequest :=
  ⟨"a", [⟨none⟩], some ⟨Int.ofNat MIN_VOLUME_SIZE_BYTES, 0⟩⟩

/-- C9 fixture: seven free bytes at the authority. -/
def c9Client : VolumedClient :=
  { getLvList := .ok []
    getFreeBytes := .ok 7
    getLvByName := fun _ => .error .notFound
    getLvByUuid := fun _ => .error .notFound
    createLv := fun _ => .error .internal
    formatLv := fun _ => .ok ()
    deleteLv := fun _ => .ok () }

/-- C9 fixture: a request carrying a multi-node access mode (raw value 5,
MultiNodeMultiWriter). -/
def c9ReqMulti : GetCapacityRequest := ⟨[⟨some ⟨5⟩⟩], none⟩

/-- C9 fixture: a single-node request whose topology names another host. -/
def c9ReqPlain : GetCapacityRequest := ⟨[⟨some ⟨1⟩⟩], some ⟨[("host", "m")]⟩⟩

/-- C10 fixture: the UUID lookup fails with a transport-level Internal
error. -/
def c10Client : VolumedClient :=
  { getLvList := .ok []
    getFreeBytes := .ok 0
    getLvByName := fun _ => .error .notFound
    getLvByUuid := fun _ => .error .internal
    createLv := fun _ => .error .internal
    formatLv := fun _ => .ok ()
    deleteLv := fun _ => .ok () }

/-- C8 fixture: the mountd oracle resolves every volume and accepts every
RPC. -/
def c8Client : MountdClient := ⟨fun _ => .ok "/dev/x", fun _ => .ok (), fun _ => .ok ()⟩

/-- C8 fixture: only /s exists; directory creation succeeds everywhere. -/
def c8Host : NodeHost := ⟨fun p => p = "/s", fun _ => true⟩

/-- C8 fixture: a publish request with an empty target_path, all other
fields populated, and a staging path /x that was never staged. -/
def c8Req : NodePublishVolumeRequest := ⟨"v", "/x", "", some ⟨some ⟨1⟩⟩⟩

/-- C8 fixture: a publish request whose staging path /x was never staged. -/
def c8ReqW : NodePublishVolumeRequest := ⟨"v", "/x", "/t", some ⟨some ⟨1⟩⟩⟩

/-! ## Helper lemmas -/

/-- With matching metadata but whitelist miss and an ownership mismatch,
the policy check fails with the ownership error. -/
theorem ensure_interactable_notOwned (cfg : Config) (host : MountHost)
    (p : String) (fm : FileMeta) (hm : host.meta p = some fm)
    (hw : cfg.whitelistMatch p = false)
    (ho : fm.uid ≠ cfg.forUserUid ∨ fm.gid ≠ cfg.forGroupGid) :
    cfg.ensure_interactable host p false = .error .notOwned := by
  unfold Config.ensure_interactable
  rw [hm]
  have hb : (fm.uid != cfg.forUserUid || fm.gid != cfg.forGroupGid) = true := by
    rcases ho with h | h <;> simp [bne_iff_ne, h]
  simp [hw, hb]

/-- The policy check with readonly off succeeds exactly on existing paths
that are whitelisted or owned by the configured pair. -/
theorem ensure_interactable_false_iff (cfg : Config) (host : MountHost)
    (p : String) :
    cfg.ensure_interactable host p false = .ok () ↔
      ((host.meta p).isSome = true ∧
        (cfg.whitelistMatch p = true ∨
          ∃ fm, host.meta p = some fm ∧ fm.uid = cfg.forUserUid ∧
            fm.gid = cfg.forGroupGid)) := by
  unfold Config.ensure_interactable
  cases hm : host.meta p with
  | none => simp
  | some m =>
    simp only [Bool.false_and, if_false, Option.isSome_some, true_and]
    by_cases hw : cfg.whitelistMatch p
    · simp [hw]
    · simp only [hw, if_false, Bool.false_eq_true, false_or]
      by_cases hb : (m.uid != cfg.forUserUid || m.gid != cfg.forGroupGid) = true
      · simp only [hb, if_true]
        constructor
        · intro h; exact absurd h (by simp)
        · rintro ⟨fm, hfm, h1, h2⟩
          injection hfm with hfm; subst hfm
          rcases Bool.or_eq_true_iff.mp hb with h | h <;>
            simp [bne_iff_ne, h1, h2] at h
      · simp only [hb, if_false]
        have hp := Bool.or_eq_false_iff.mp (Bool.eq_false_iff.mpr hb)
        refine ⟨fun _ => ⟨m, rfl, ?_, ?_⟩, fun _ => rfl⟩
        · have := hp.1; simpa [bne_iff_ne] using this
        · have := hp.2; simpa [bne_iff_ne] using this

/-! ## C1 -/

/-- C1: for a read-only mount request the destination policy check is
inverted relative to the claim: with readonly requested, a path whose
read-only bit IS set is rejected by the dedicated readonly branch, while a
writable owned path passes; with readonly not requested the same read-only
path passes. The claim says success requires the bit to be set. -/
theorem c1_readonly_check_inverted :
    c1Config.ensure_interactable c1Host "/ro" true = .error .readonlyCheckFailed
    ∧ c1Config.ensure_interactable c1Host "/rw" true = .ok ()
    ∧ c1Config.ensure_interactable c1Host "/ro" false = .ok () := by
  refine ⟨by decide, by decide, by decide⟩

/-! ## C2 -/

/-- C2: the policy check (with readonly not requested) accepts a path iff
it exists and is whitelisted or owned by the configured pair, so a
whitelisted path is accepted regardless of ownership; a reachable source
path that exists but is neither whitelisted nor owned makes mount fail
PermissionDenied, and a mounted path in the same situation makes unmount
fail PermissionDenied. -/
theorem c2_policy_check (s : MountdServer) (host : MountHost) (p : String)
    (req : MountRequest) :
    (s.config.ensure_interactable host p false = .ok () ↔
      ((host.meta p).isSome = true ∧
        (s.config.whitelistMatch p = true ∨
          ∃ fm, host.meta p = some fm ∧ fm.uid = s.config.forUserUid ∧
            fm.gid = s.config.forGroupGid)))
    ∧ (∀ src dst, req.mount = some ⟨src, dst⟩ → src ≠ "" → dst ≠ "" →
        ∀ fm, host.meta src = some fm →
          s.config.whitelistMatch src = false →
          (fm.uid ≠ s.config.forUserUid ∨ fm.gid ≠ s.config.forGroupGid) →
          s.mount host req = .err .permissionDenied)
    ∧ (p ≠ "" → host.mounts.contains p = true →
        ∀ fm, host.meta p = some fm →
          s.config.whitelistMatch p = false →
          (fm.uid ≠ s.config.forUserUid ∨ fm.gid ≠ s.config.forGroupGid) →
          s.unmount host p = .err .permissionDenied) := by
  refine ⟨ensure_interactable_false_iff s.config host p, ?_, ?_⟩
  · intro src dst hreq hsrc hdst fm hm hw ho
    have hfail := ensure_interactable_notOwned s.config host src fm hm hw ho
    unfold MountdServer.mount
    rw [hreq]
    simp [hsrc, hdst, hfail]
  · intro hp hmnt fm hm hw ho
    have hfail := ensure_interactable_notOwned s.config host p fm hm hw ho
    unfold MountdServer.unmount
    simp [hp, hmnt, hfail]
    exact List.mem_of_elem_eq_true hmnt

/-- C2 witness: in the concrete fixture, the whitelisted path /w owned by
5:5 passes the check, while mount with source /bad (owned 1:1, not
whitelisted) and unmount of the mounted /bad both fail PermissionDenied. -/
theorem c2_policy_check_witness :
    c2Srv.config.ensure_interactable c2Host "/w" false = .ok ()
    ∧ c2Srv.mount c2Host c2Req = .err .permissionDenied
    ∧ c2Srv.unmount c2Host "/bad" = .err .permissionDenied := by
  refine ⟨?_, ?_, ?_⟩
  · exact (c2_policy_check c2Srv c2Host "/w" c2Req).1.mpr
      ⟨by decide, Or.inl (by decide)⟩
  · exact (c2_policy_check c2Srv c2Host "/w" c2Req).2.1 "/bad" "/w" rfl
      (by decide) (by decide) ⟨1, 1, false⟩ (by decide) (by decide)
      (Or.inl (by decide))
  · exact (c2_policy_check c2Srv c2Host "/bad" c2Req).2.2 (by decide)
      (by decide) ⟨1, 1, false⟩ (by decide) (by decide) (Or.inl (by decide))

/-! ## C3 -/

/-- A boolean absorption fact used for flag-set inclusion. -/
theorem bool_not_or_self_or (x y : Bool) : (!x || (x || y)) = true := by
  cases x <;> simp

/-- Every flag set is included in its union with another. -/
theorem MountFlags.isSubset_union_left (a b : MountFlags) :
    MountFlags.isSubset a (a.union b) = true := by
  cases a; cases b
  simp [MountFlags.isSubset, MountFlags.union, bool_not_or_self_or]

/-- C3: whenever mount reaches the mount syscall, the flag set passed to
it has NoDev and NoSuid set and includes every flag decoded from the
caller request. -/
theorem c3_hardening_flags (s : MountdServer) (host : MountHost)
    (req : MountRequest) (fl : MountFlags)
    (h : s.mount host req = .okMounted fl) :
    fl.nodev = true ∧ fl.nosuid = true ∧
      ∀ mapped, req.flags.mapM MountFlag.fromI32 = some mapped →
        MountFlags.isSubset (MountFlags.ofList mapped) fl = true := by
  unfold MountdServer.mount at h
  split at h
  · exact absurd h (by simp)
  split at h
  · exact absurd h (by simp)
  split at h
  · exact absurd h (by simp)
  split at h
  · exact absurd h (by simp)
  split at h
  · exact absurd h (by simp)
  split at h
  · exact absurd h (by simp)
  split at h
  · exact absurd h (by simp)
  rename_i hmapped
  split at h
  · exact absurd h (by simp)
  rename_i mapped hmap
  injection h with hfl
  subst hfl
  refine ⟨by simp [MountFlags.union], by simp [MountFlags.union], ?_⟩
  intro mapped2 hmap2
  rw [hmap2] at hmap
  injection hmap with hmap
  subst hmap
  exact MountFlags.isSubset_union_left _ _

/-- C3 witness: the fixture request carrying Bind and ReadOnly reaches the
syscall with all four bits set, which includes the decoded request flags
and the two hardening bits. -/
theorem c3_hardening_flags_witness :
    (⟨true, true, true, true⟩ : MountFlags).nodev = true ∧
    (⟨true, true, true, true⟩ : MountFlags).nosuid = true ∧
      ∀ mapped, c3Req.flags.mapM MountFlag.fromI32 = some mapped →
        MountFlags.isSubset (MountFlags.ofList mapped)
          ⟨true, true, true, true⟩ = true :=
  c3_hardening_flags c3Srv c3Host c3Req ⟨true, true, true, true⟩ (by decide)

/-! ## C7 -/

/-- C7: with the destination already in the live mount table, mount never
reaches the mount syscall, and it returns the silent already-mounted
success as soon as its preceding checks pass; unmount of a path absent
from the mount table is the silent not-mounted success, with no unmount
syscall. -/
theorem c7_idempotent_mount_unmount (s : MountdServer) (host : MountHost)
    (req : MountRequest) (p src dst : String) :
    (req.mount = some ⟨src, dst⟩ → host.mounts.contains dst = true →
      ∀ fl, s.mount host req ≠ .okMounted fl)
    ∧ (req.mount = some ⟨src, dst⟩ → src ≠ "" → dst ≠ "" →
        s.config.ensure_interactable host src false = .ok () →
        s.config.ensure_interactable host dst (req.flags.contains 2) = .ok () →
        host.isDir dst = true → host.mounts.contains dst = true →
        s.mount host req = .okAlreadyMounted)
    ∧ (p ≠ "" → host.mounts.contains p = false →
        s.unmount host p = .okNotMounted) := by
  refine ⟨?_, ?_, ?_⟩
  · intro hreq hmnt fl h
    unfold MountdServer.mount at h
    rw [hreq] at h
    dsimp only at h
    split at h
    · exact absurd h (by simp)
    split at h
    · exact absurd h (by simp)
    split at h
    · exact absurd h (by simp)
    split at h
    · exact absurd h (by simp)
    split at h
    · exact absurd h (by simp)
    exact absurd h (by simp)
  · intro hreq hsrc hdst hes hed hdir hmnt
    unfold MountdServer.mount
    rw [hreq]
    dsimp only
    rw [if_neg hsrc, if_neg hdst, hes]
    dsimp only
    rw [hed]
    dsimp only
    rw [hdir, hmnt]
    simp
  · intro hp hmnt
    unfold MountdServer.unmount
    rw [if_neg hp, hmnt]
    simp

/-- C7 witness: in the fixture the already-mounted /d makes mount a silent
success, and unmounting the never-mounted /x is a silent success. -/
theorem c7_idempotent_witness :
    c7Srv.mount c7Host c7Req = .okAlreadyMounted
    ∧ c7Srv.unmount c7Host "/x" = .okNotMounted := by
  refine ⟨?_, ?_⟩
  · exact (c7_idempotent_mount_unmount c7Srv c7Host c7Req "/x" "/s" "/d").2.1
      rfl (by decide) (by decide) (by decide) (by decide) (by decide) (by decide)
  · exact (c7_idempotent_mount_unmount c7Srv c7Host c7Req "/x" "/s" "/d").2.2
      (by decide) (by decide)

/-! ## C4 and C6: CreateVolume -/

/-- With valid arguments and a resolved capacity inside both bounds,
create_volume reaches the lookup-create-format protocol tail. -/
theorem create_volume_reaches_postBounds (c : RLVMController)
    (client : VolumedClient) (hash : String → String)
    (req : CreateVolumeRequest) (free capacity limit : Nat)
    (hname : req.name ≠ "")
    (hcaps : req.volume_capabilities.isEmpty = false)
    (hcap : resolveCapacityRange req.capacity_range = .ok (capacity, limit))
    (hfree : client.getFreeBytes = .ok free)
    (hmin : MIN_VOLUME_SIZE_BYTES ≤ capacity)
    (hmax : capacity ≤ free) :
    c.create_volume client hash req =
      c.create_volume_postBounds client hash req.name capacity := by
  unfold RLVMController.create_volume
  rw [if_neg hname, hcaps, hcap, hfree]
  dsimp only
  rw [if_neg (Nat.not_lt.mpr hmin), if_neg (Nat.not_lt.mpr hmax)]
  simp

/-- C4: after the bound checks, create_volume looks the hashed safe name
up at volumed; a hit with equal capacity is reused with no create RPC, a
hit with different capacity fails AlreadyExists with no create RPC, and a
NotFound miss issues a create RPC for the safe name carrying the original
name as a tag. -/
theorem c4_idempotent_create (c : RLVMController) (client : VolumedClient)
    (hash : String → String) (req : CreateVolumeRequest)
    (free capacity limit : Nat) (old : LogicalVolume)
    (hname : req.name ≠ "")
    (hcaps : req.volume_capabilities.isEmpty = false)
    (hcap : resolveCapacityRange req.capacity_range = .ok (capacity, limit))
    (hfree : client.getFreeBytes = .ok free)
    (hmin : MIN_VOLUME_SIZE_BYTES ≤ capacity)
    (hmax : capacity ≤ free) :
    (client.getLvByName (hash req.name) = .ok old →
      old.capacity_bytes = capacity →
      client.formatLv (hash req.name) = .ok () →
      c.create_volume client hash req = ⟨none, .ok (c.process_volume old)⟩)
    ∧ (client.getLvByName (hash req.name) = .ok old →
      old.capacity_bytes ≠ capacity →
      c.create_volume client hash req = ⟨none, .error .alreadyExists⟩)
    ∧ (client.getLvByName (hash req.name) = .error .notFound →
      (c.create_volume client hash req).createReq =
        some ⟨hash req.name, capacity, ["name=" ++ req.name]⟩) := by
  have hpb := create_volume_reaches_postBounds c client hash req free capacity
    limit hname hcaps hcap hfree hmin hmax
  refine ⟨?_, ?_, ?_⟩
  · intro hlook hsame hfmt
    rw [hpb]
    unfold RLVMController.create_volume_postBounds
    dsimp only
    rw [hlook, hfmt]
    simp [hsame]
  · intro hlook hdiff
    rw [hpb]
    unfold RLVMController.create_volume_postBounds
    dsimp only
    rw [hlook]
    simp [hdiff]
  · intro hlook
    rw [hpb]
    unfold RLVMController.create_volume_postBounds
    dsimp only
    rw [hlook]
    dsimp only
    cases hc : client.createLv ⟨hash req.name, capacity, ["name=" ++ req.name]⟩ with
    | error e => simp [hc]
    | ok vol =>
      cases hf : client.formatLv (hash req.name) with
      | error e => simp [hc, hf]
      | ok u => cases u; simp [hc, hf]

/-- C4 witness: on the fixture with no pre-existing volume, the lookup
misses and a create RPC for the hashed name with the name tag is issued. -/
theorem c4_idempotent_create_witness :
    (ctlN.create_volume c4Client cHash c4Req).createReq =
      some ⟨cHash "a", MIN_VOLUME_SIZE_BYTES, ["name=" ++ "a"]⟩ :=
  (c4_idempotent_create ctlN c4Client cHash c4Req MIN_VOLUME_SIZE_BYTES
    MIN_VOLUME_SIZE_BYTES 0 ⟨"", "", 0⟩ (by decide) rfl rfl rfl
    (Nat.le_refl _) (Nat.le_refl _)).2.2 rfl

/-- C6: with non-empty name and capabilities, a missing capacityRange
resolves to the 512 MiB minimum; a resolved capacity strictly below the
minimum or strictly above the free bytes fails OutOfRange; and a capacity
exactly equal to the free bytes (at or above the minimum) passes both
bound checks and proceeds to the creation protocol. -/
theorem c6_capacity_bounds (c : RLVMController) (client : VolumedClient)
    (hash : String → String) (req : CreateVolumeRequest) (free : Nat)
    (hname : req.name ≠ "")
    (hcaps : req.volume_capabilities.isEmpty = false)
    (hfree : client.getFreeBytes = .ok free) :
    (req.capacity_range = none →
      resolveCapacityRange req.capacity_range = .ok (MIN_VOLUME_SIZE_BYTES, 0))
    ∧ (∀ capacity limit,
        resolveCapacityRange req.capacity_range = .ok (capacity, limit) →
        capacity < MIN_VOLUME_SIZE_BYTES →
        c.create_volume client hash req = ⟨none, .error .outOfRange⟩)
    ∧ (∀ capacity limit,
        resolveCapacityRange req.capacity_range = .ok (capacity, limit) →
        free < capacity →
        c.create_volume client hash req = ⟨none, .error .outOfRange⟩)
    ∧ (∀ limit,
        resolveCapacityRange req.capacity_range = .ok (free, limit) →
        MIN_VOLUME_SIZE_BYTES ≤ free →
        c.create_volume client hash req =
          c.create_volume_postBounds client hash req.name free) := by
  refine ⟨?_, ?_, ?_, ?_⟩
  · intro hr
    rw [hr]
    rfl
  · intro capacity limit hcap hlow
    unfold RLVMController.create_volume
    rw [if_neg hname, hcaps, hcap, hfree]
    dsimp only
    rw [if_pos hlow]
    simp
  · intro capacity limit hcap hhigh
    unfold RLVMController.create_volume
    rw [if_neg hname, hcaps, hcap, hfree]
    dsimp only
    by_cases hlow : capacity < MIN_VOLUME_SIZE_BYTES
    · rw [if_pos hlow]
      simp
    · rw [if_neg hlow, if_pos hhigh]
      simp
  · intro limit hcap hmin
    exact create_volume_reaches_postBounds c client hash req free free limit
      hname hcaps hcap hfree hmin (Nat.le_refl _)

/-- C6 witness: on the fixture asking for exactly the free-byte boundary
(equal to the 512 MiB minimum), create_volume proceeds to the creation
protocol. -/
theorem c6_capacity_bounds_witness :
    ctlN.create_volume c6Client cHash c6Req =
      ctlN.create_volume_postBounds c6Client cHash "a" MIN_VOLUME_SIZE_BYTES :=
  (c6_capacity_bounds ctlN c6Client cHash c6Req MIN_VOLUME_SIZE_BYTES
    (by decide) rfl rfl).2.2.2 0 (by decide) (Nat.le_refl _)

/-! ## C5: ListVolumes pagination -/

/-- A find? over a mapped list succeeds exactly when some element of the
original list satisfies the composed predicate. -/
theorem findMap_isSome_eq_any {α β : Type} (l : List α) (f : α → β)
    (p : β → Bool) :
    ((l.map f).find? p).isSome = l.any fun x => p (f x) := by
  induction l with
  | nil => rfl
  | cons a t ih =>
    by_cases h : p (f a)
    · simp [List.find?_cons, h]
    · simp only [List.map_cons, List.find?_cons, Bool.not_eq_true] at h ⊢
      rw [h]
      simp only [List.any_cons, h, Bool.false_or]
      exact ih

/-- C9: get_capacity answers the zero default without querying the
authority when some capability decodes to a multi-node mode or when the
request topology equals the host topology; otherwise it queries free
bytes and reports them with the 512 MiB minimum and no maximum. -/
theorem c9_capacity_short_circuits (c : RLVMController)
    (client : VolumedClient) (req : GetCapacityRequest) :
    ((req.volume_capabilities.any fun cap =>
        isMultiMode (cap.access_mode.getD ⟨0⟩).modeEnum) = true →
      c.get_capacity client req = .shortCircuit {})
    ∧ (∀ t, req.accessible_topology = some t →
        topologyEq c.get_host_topology t = true →
        c.get_capacity client req = .shortCircuit {})
    ∧ ((req.volume_capabilities.any fun cap =>
          isMultiMode (cap.access_mode.getD ⟨0⟩).modeEnum) = false →
        (∀ t, req.accessible_topology = some t →
          topologyEq c.get_host_topology t = false) →
        ∀ free, client.getFreeBytes = .ok free →
        c.get_capacity client req = .queried (.ok
          ⟨Int.ofNat free, none, some (Int.ofNat MIN_VOLUME_SIZE_BYTES)⟩)) := by
  have hfind := findMap_isSome_eq_any req.volume_capabilities
    (fun cap => (cap.access_mode.getD ⟨0⟩).modeEnum) isMultiMode
  refine ⟨?_, ?_, ?_⟩
  · intro hany
    unfold RLVMController.get_capacity
    dsimp only
    rw [hfind, hany]
    simp
  · intro t ht htop
    unfold RLVMController.get_capacity
    dsimp only
    by_cases hm : ((req.volume_capabilities.map fun cap =>
        (cap.access_mode.getD ⟨0⟩).modeEnum).find? isMultiMode).isSome
    · rw [if_pos hm]
    · rw [if_neg hm, ht]
      dsimp only
      rw [htop]
      simp
  · intro hany htop free hfree
    unfold RLVMController.get_capacity
    dsimp only
    rw [hfind, hany]
    have hcond : (match req.accessible_topology with
        | some t => topologyEq c.get_host_topology t
        | none => false) = false := by
      cases ht : req.accessible_topology with
      | none => rfl
      | some t => exact htop t ht
    rw [hcond]
    simp only [Bool.false_eq_true, if_false]
    rw [hfree]

/-- C9 witness: a multi-node capability short-circuits to the default
response, and a single-node request with a foreign topology is answered
from the authority with free bytes 7 and the 512 MiB minimum. -/
theorem c9_capacity_short_circuits_witness :
    ctlN.get_capacity c9Client c9ReqMulti = .shortCircuit {}
    ∧ ctlN.get_capacity c9Client c9ReqPlain = .queried (.ok
        ⟨7, none, some (Int.ofNat MIN_VOLUME_SIZE_BYTES)⟩) := by
  refine ⟨?_, ?_⟩
  · exact (c9_capacity_short_circuits ctlN c9Client c9ReqMulti).1 (by decide)
  · exact (c9_capacity_short_circuits ctlN c9Client c9ReqPlain).2.2 (by decide)
      (by intro t ht
          have : t = (⟨[("host", "m")]⟩ : Topology) := by
            cases ht
            rfl
          rw [this]
          decide) 7 rfl

/-! ## C10: DeleteVolume -/

/-- C10: delete_volume rejects only the empty id; any lookup failure at
all makes it skip deletion and succeed; and after a successful lookup the
response is exactly the delete RPC result for the found internal name. -/
theorem c10_delete_absent_tolerant (client : VolumedClient) (vid : String) :
    (vid = "" →
      RLVMController.delete_volume client vid = ⟨none, .error .invalidArgument⟩)
    ∧ (vid ≠ "" → ∀ e : Code, client.getLvByUuid vid = .error e →
        RLVMController.delete_volume client vid = ⟨none, .ok ()⟩)
    ∧ (vid ≠ "" → ∀ vol, client.getLvByUuid vid = .ok vol →
        RLVMController.delete_volume client vid =
          ⟨some vol.name, client.deleteLv vol.name⟩) := by
  refine ⟨?_, ?_, ?_⟩
  · intro hv
    unfold RLVMController.delete_volume
    rw [if_pos hv]
  · intro hv e hlook
    unfold RLVMController.delete_volume
    rw [if_neg hv, hlook]
  · intro hv vol hlook
    unfold RLVMController.delete_volume
    rw [if_neg hv, hlook]
    dsimp only
    cases hd : client.deleteLv vol.name with
    | error e => simp [hd]
    | ok u => cases u; simp [hd]

/-- C10 witness: an Internal lookup failure (not just NotFound) makes the
delete a silent success without any delete RPC. -/
theorem c10_delete_absent_tolerant_witness :
    RLVMController.delete_volume c10Client "v" = ⟨none, .ok ()⟩ :=
  (c10_delete_absent_tolerant c10Client "v").2.1 (by decide) .internal rfl

/-! ## C8: NodePublishVolume -/

/-- C8 counterexample: a publish request with an empty target_path but all
other fields present is not rejected as InvalidArgument by the Node
validation; create_dir_all trivially succeeds on the empty path, so the
handler runs on to the staging check and, the staging path /x not
existing, fails FailedPrecondition where the claim demands
InvalidArgument. -/
theorem c8_publish_counterexample :
    (RLVMNode.node_publish_volume c8Client c8Host c8Req).response =
      .error .failedPrecondition
    ∧ c8Req.target_path = ""
    ∧ Code.failedPrecondition ≠ Code.invalidArgument := by
  refine ⟨by decide, by decide, by decide⟩

/-- C8 (amended): node_publish_volume requires volumeID, stagingPath and
capability to be present and non-empty, failing InvalidArgument otherwise,
but never validates targetPath (an empty targetPath proceeds past
validation and past the trivially-succeeding directory creation); once
the volume ID resolves it always invokes recursive creation of
targetPath; and when targetPath creation succeeds but stagingPath does
not exist it fails FailedPrecondition. -/
theorem c8_publish_validation (client : MountdClient) (host : NodeHost)
    (req : NodePublishVolumeRequest) :
    (req.volume_id = "" →
      RLVMNode.node_publish_volume client host req =
        ⟨none, .error .invalidArgument⟩)
    ∧ (req.volume_id ≠ "" → req.staging_target_path = "" →
        RLVMNode.node_publish_volume client host req =
          ⟨none, .error .invalidArgument⟩)
    ∧ (req.volume_id ≠ "" → req.staging_target_path ≠ "" →
        req.volume_capability = none →
        RLVMNode.node_publish_volume client host req =
          ⟨none, .error .invalidArgument⟩)
    ∧ (req.volume_id ≠ "" → req.staging_target_path ≠ "" →
        req.volume_capability.isSome = true →
        ∀ bp, client.getLvmBlockPath req.volume_id = .ok bp →
        ((RLVMNode.node_publish_volume client host req).createDirCall =
            some req.target_path
          ∧ (host.createDirAll req.target_path = true →
              host.pathExists req.staging_target_path = false →
              (RLVMNode.node_publish_volume client host req).response =
                .error .failedPrecondition))) := by
  refine ⟨?_, ?_, ?_, ?_⟩
  · intro hv
    unfold RLVMNode.node_publish_volume
    rw [if_pos hv]
  · intro hv hs
    unfold RLVMNode.node_publish_volume
    rw [if_neg hv, if_pos hs]
  · intro hv hs hc
    unfold RLVMNode.node_publish_volume
    rw [if_neg hv, if_neg hs, if_pos (by rw [hc]; rfl)]
  · intro hv hs hc bp hbp
    have hcn : req.volume_capability.isNone = false := by
      cases h : req.volume_capability with
      | none => rw [h] at hc; exact absurd hc (by decide)
      | some v => rfl
    unfold RLVMNode.node_publish_volume
    rw [if_neg hv, if_neg hs, if_neg (by simp [hcn]), hbp]
    dsimp only
    refine ⟨rfl, ?_⟩
    intro hdir hex
    rw [hdir, hex]
    simp

/-- C8 witness: with a resolvable volume, a creatable target /t and a
staging path /x that does not exist, publish records the target creation
and fails FailedPrecondition. -/
theorem c8_publish_validation_witness :
    (RLVMNode.node_publish_volume c8Client c8Host c8ReqW).createDirCall =
      some "/t"
    ∧ (RLVMNode.node_publish_volume c8Client c8Host c8ReqW).response =
      .error .failedPrecondition := by
  have h := (c8_publish_validation c8Client c8Host c8ReqW).2.2.2
    (by decide) (by decide) (by decide) "/dev/x" rfl
  exact ⟨h.1, h.2 (by decide) (by decide)⟩

end RLVM
